import Mathlib

/-!
Verification of the TinyPacks python3 codec (src/python3/tinypacks.py).

The source file is embedded shallowly:

* a Python value that can reach `dumpb`/`_loadb` is modelled by `Value`
  (Python `str` values are represented by their UTF-8 byte sequence,
  Python `float` values by the 64-bit IEEE-754 bit pattern of the double);
* `bytes` objects are `List Nat` with entries below 256;
* a Python exception (`ValueError`, `TypeError`, `struct.error`,
  `OverflowError`, `UnicodeDecodeError`, `IndexError`) is modelled by
  `Except.error` carrying a message that names the exception raised;
* `struct.pack`/`struct.unpack` calls become explicit big-endian byte
  arithmetic (`beBytes`, `beNat`, `beInt`, `packSingleOfDouble`,
  `singleToDoubleBits`).

The recursive-call slips of the source are kept as they are in the code:
`dumpb` of a non-empty list calls `pack(value)` (that is `struct.pack`
with a non-format first argument, a `TypeError`), `_loadb` of a non-empty
list content calls `unpack(content_raw)` (`struct.unpack` with a missing
argument, a `TypeError`), and the extended-32 branch of `_loadb` calls
`unpack(">BHL", bytes)` where `bytes` is the Python builtin type, again a
`TypeError`.
-/

namespace TinyPacks

/-! ### Constants of the source file -/

def TP_NONE : Nat := 0x00
def TP_BOOLEAN : Nat := 0x20
def TP_INTEGER : Nat := 0x40
def TP_REAL : Nat := 0x60
def TP_STRING : Nat := 0x80
def TP_BYTES : Nat := 0xA0
def TP_LIST : Nat := 0xC0
def TP_MAP : Nat := 0xE0

def TP_SMALL_SIZE_MASK : Nat := 0x1F
def TP_SMALL_SIZE_MAX : Nat := 0x1E
def TP_EXTENDED_SIZE_16 : Nat := 0x1F
def TP_EXTENDED_SIZE_32 : Nat := 0xFFFF

def TP_TYPE_MASK : Nat := 0b11100000

/-! ### The value model -/

/-- A Python value handled by the codec.  `str` carries the UTF-8 bytes of
the text (UTF-8 is injective, so equality of texts is equality of these
bytes); `real` carries the 64-bit IEEE-754 bit pattern of the Python
float; `map` carries the `dict` entries in insertion order, keys unique. -/
inductive Value where
  | none : Value
  | bool : Bool → Value
  | int : Int → Value
  | real : Nat → Value
  | str : List Nat → Value
  | bytes : List Nat → Value
  | list : List Value → Value
  | map : List (Value × Value) → Value

/-! ### Byte helpers (the `struct.pack`/`struct.unpack` arithmetic) -/

/-- Big-endian bytes of `u` at width `w` (`struct.pack` of an unsigned
big-endian field, with `u` already reduced modulo `2 ^ (8 * w)`). -/
def beBytes : Nat → Nat → List Nat
  | 0, _ => []
  | w + 1, u => beBytes w (u / 256) ++ [u % 256]

/-- Big-endian two's-complement bytes of the integer `n` at width `w`
(`struct.pack` of a signed big-endian field). -/
def beBytesI (w : Nat) (n : Int) : List Nat :=
  beBytes w (n % ((2 : Int) ^ (8 * w))).toNat

/-- The unsigned big-endian value of a byte sequence. -/
def beNat (l : List Nat) : Nat :=
  l.foldl (fun a b => a * 256 + b) 0

/-- The signed big-endian two's-complement value of a width-`w` byte
sequence (`struct.unpack` of a signed big-endian field). -/
def beInt (w : Nat) (cs : List Nat) : Int :=
  let u := beNat cs
  if u < 2 ^ (8 * w - 1) then (u : Int) else (u : Int) - 2 ^ (8 * w)

/-- The `bit_len` function of the source: the length of `bin(n)` with the
sign and the `0b` marker stripped, that is the bit length of the magnitude
of `n` (`bit_len 0 = 0` because `bin(0) = "0b0"` and `lstrip("-0b")`
removes the zero digit as well). -/
def bit_len (n : Int) : Nat :=
  Nat.size n.natAbs

/-! ### IEEE-754 conversions used by the `float` branches

`struct.pack(">f", x)` casts the double `x` to single precision with
round-to-nearest-even, raising `OverflowError` when the magnitude does not
fit, and `struct.unpack(">f", b)` widens the single back to a double
exactly.  Both are deterministic bit manipulations, modelled here on the
bit patterns. -/

/-- Convert a 64-bit double bit pattern to the 32-bit single bit pattern
produced by `struct.pack(">f", x)`: round to nearest, ties to even;
`OverflowError` when the rounded magnitude exceeds the single range;
NaN payloads are truncated to the top 23 mantissa bits with the quiet bit
forced. -/
def packSingleOfDouble (bits : Nat) : Except String Nat :=
  let s := bits / 2 ^ 63
  let e := bits / 2 ^ 52 % 2 ^ 11
  let m := bits % 2 ^ 52
  if e = 0x7FF then
    if m = 0 then .ok (s * 2 ^ 31 + 0xFF * 2 ^ 23)
    else .ok (s * 2 ^ 31 + 0xFF * 2 ^ 23 + (2 ^ 22 ||| m / 2 ^ 29))
  else if 897 ≤ e then
    let sig := 2 ^ 52 + m
    let q := sig / 2 ^ 29
    let r := sig % 2 ^ 29
    let q2 := if 2 ^ 28 < r ∨ (r = 2 ^ 28 ∧ q % 2 = 1) then q + 1 else q
    let es := if q2 = 2 ^ 24 then e - 896 + 1 else e - 896
    let mant := if q2 = 2 ^ 24 then 0 else q2 - 2 ^ 23
    if 255 ≤ es then .error "OverflowError: float too large to pack with f format"
    else .ok (s * 2 ^ 31 + es * 2 ^ 23 + mant)
  else
    let sig := if e = 0 then m else 2 ^ 52 + m
    let shift := if e = 0 then 925 else 926 - e
    let q := sig / 2 ^ shift
    let r := sig % 2 ^ shift
    let half := 2 ^ (shift - 1)
    let q2 := if half < r ∨ (r = half ∧ q % 2 = 1) then q + 1 else q
    .ok (s * 2 ^ 31 + q2)

/-- Widen a 32-bit single bit pattern to the 64-bit double bit pattern
produced by `struct.unpack(">f", b)` (exact). -/
def singleToDoubleBits (b : Nat) : Nat :=
  let s := b / 2 ^ 31
  let e := b / 2 ^ 23 % 2 ^ 8
  let m := b % 2 ^ 23
  if e = 0xFF then s * 2 ^ 63 + 0x7FF * 2 ^ 52 + m * 2 ^ 29
  else if e = 0 then
    if m = 0 then s * 2 ^ 63
    else
      let k := Nat.size m
      s * 2 ^ 63 + (k + 873) * 2 ^ 52 + (m - 2 ^ (k - 1)) * 2 ^ (53 - k)
  else s * 2 ^ 63 + (e + 896) * 2 ^ 52 + m * 2 ^ 29

/-! ### UTF-8 validation (`bytes.decode("utf8")` of the String branch) -/

/-- A UTF-8 continuation byte. -/
def contB (c : Nat) : Bool := 0x80 ≤ c && c ≤ 0xBF

/-- The constrained range of the byte after a three-byte lead (excludes
overlong forms after 0xE0 and surrogates after 0xED). -/
def lead3Ok (b c : Nat) : Bool :=
  if b = 0xE0 then 0xA0 ≤ c && c ≤ 0xBF
  else if b = 0xED then 0x80 ≤ c && c ≤ 0x9F
  else contB c

/-- The constrained range of the byte after a four-byte lead (excludes
overlong forms after 0xF0 and out-of-range points after 0xF4). -/
def lead4Ok (b c : Nat) : Bool :=
  if b = 0xF0 then 0x90 ≤ c && c ≤ 0xBF
  else if b = 0xF4 then 0x80 ≤ c && c ≤ 0x8F
  else contB c

/-- Strict UTF-8 validity of a byte sequence, as checked by Python's
`bytes.decode("utf8")`. -/
def utf8Valid : List Nat → Bool
  | [] => true
  | b :: rest =>
    if b < 0x80 then utf8Valid rest
    else if b < 0xC2 then false
    else if b ≤ 0xDF then
      match rest with
      | c1 :: r => contB c1 && utf8Valid r
      | [] => false
    else if b ≤ 0xEF then
      match rest with
      | c1 :: c2 :: r => lead3Ok b c1 && contB c2 && utf8Valid r
      | _ => false
    else if b ≤ 0xF4 then
      match rest with
      | c1 :: c2 :: c3 :: r => lead4Ok b c1 && contB c2 && contB c3 && utf8Valid r
      | _ => false
    else false

/-! ### The encoder `dumpb` -/

/-- The shared tail of every block/container branch of `dumpb`: emit the
header for a content of `blen` bytes (direct tier, extended-16 tier, or
extended-16 escape plus extended-32 field) followed by the content, or
raise the branch's `ValueError` when the length reaches `0xFFFFFFFF`. -/
def tiered (t : Nat) (content : List Nat) (msg : String) : Except String (List Nat) :=
  let blen := content.length
  if blen ≤ TP_SMALL_SIZE_MAX then .ok ((t ||| blen) :: content)
  else if blen < 0xFFFF then
    .ok ((t ||| TP_EXTENDED_SIZE_16) :: beBytes 2 blen ++ content)
  else if blen < 0xFFFFFFFF then
    .ok ((t ||| TP_EXTENDED_SIZE_16) :: beBytes 2 TP_EXTENDED_SIZE_32 ++ beBytes 4 blen ++ content)
  else .error msg

mutual

/-- The `dumpb` function of the source.  The branches follow the source's
`isinstance` chain: `None`, `bool`, `int`, `float`, `str`,
`bytes`/`bytearray`, `list`/`tuple`, `dict`.  The list branch encodes the
elements with `pack(value)` — `struct.pack` called with a non-format first
argument — so any non-empty list raises a `TypeError`; the dict branch
recurses with `dumpb` and never forwards `use_double`. -/
def dumpb (obj : Value) (use_double : Bool) : Except String (List Nat) :=
  match obj with
  | .none => .ok [TP_NONE]
  | .bool b => if b then .ok [0x21, 0x01] else .ok [TP_BOOLEAN]
  | .int n =>
    let bit_length := bit_len n
    if bit_length = 0 then .ok [TP_INTEGER]
    else if bit_length ≤ 7 then .ok ((TP_INTEGER ||| 1) :: beBytesI 1 n)
    else if bit_length ≤ 15 then .ok ((TP_INTEGER ||| 2) :: beBytesI 2 n)
    else if bit_length ≤ 31 then .ok ((TP_INTEGER ||| 4) :: beBytesI 4 n)
    else if bit_length ≤ 63 then .ok ((TP_INTEGER ||| 8) :: beBytesI 8 n)
    else .error "Integer number too big"
  | .real bits =>
    -- `obj == 0` holds exactly for the two zero bit patterns
    if bits = 0 ∨ bits = 0x8000000000000000 then .ok [TP_REAL]
    else if use_double then .ok ((TP_REAL ||| 8) :: beBytes 8 bits)
    else
      match packSingleOfDouble bits with
      | .error e => .error e
      | .ok s32 => .ok ((TP_REAL ||| 4) :: beBytes 4 s32)
  | .str s => tiered TP_STRING s "String too long"
  | .bytes s => tiered TP_BYTES s "Bytearray too long"
  | .list l =>
    -- the source encodes the elements with pack(value): struct.pack with a
    -- non-format first argument, so the TypeError fires for the first
    -- element of any non-empty list, and only the empty join succeeds
    if l.isEmpty then tiered TP_LIST [] "List too long"
    else .error "TypeError: pack requires a struct format string"
  | .map items =>
    match dumpbItems items with
    | .error e => .error e
    | .ok content => tiered TP_MAP content "Dict too long"

/-- The element loop of the dict branch of `dumpb`: encode key and value
of every item in insertion order and concatenate (`use_double` is not
forwarded by the source, so the recursive calls use the default `False`). -/
def dumpbItems : List (Value × Value) → Except String (List Nat)
  | [] => .ok []
  | (k, v) :: rest =>
    match dumpb k false with
    | .error e => .error e
    | .ok bk =>
      match dumpb v false with
      | .error e => .error e
      | .ok bv =>
        match dumpbItems rest with
        | .error e => .error e
        | .ok brest => .ok (bk ++ bv ++ brest)

end

/-! ### Python `dict` key handling for the Map branch of `_loadb`

`obj[key] = value` on a Python `dict` requires the key to be hashable
(decoded `list` and `dict` values are not, raising `TypeError`), looks the
key up with `==` (so `True`, `1` and `1.0` share a slot), keeps the
first-inserted key object on overwrite, and appends new keys in insertion
order. -/

/-- Whether a decoded value is hashable as a Python `dict` key (decoded
containers, `list` and `dict`, are not). -/
def hashable : Value → Bool
  | .list _ => false
  | .map _ => false
  | _ => true

/-- The exact integer value of a double bit pattern, when the double is
finite and integral (used for Python's numeric `==` across `int`, `bool`
and `float`). -/
def realToIntExact (bits : Nat) : Option Int :=
  let s := bits / 2 ^ 63
  let e := bits / 2 ^ 52 % 2 ^ 11
  let m := bits % 2 ^ 52
  if e = 0x7FF then Option.none
  else
    let sig : Nat := if e = 0 then m else 2 ^ 52 + m
    let down : Nat := 1075 - e   -- the value is sig * 2 ^ (e - 1075), e ≤ 1074 here
    if 1075 ≤ e then
      Option.some (if s = 1 then -(sig * 2 ^ (e - 1075) : Nat) else (sig * 2 ^ (e - 1075) : Nat))
    else if sig % 2 ^ down = 0 then
      Option.some (if s = 1 then -(sig / 2 ^ down : Nat) else (sig / 2 ^ down : Nat))
    else Option.none

/-- Python `==` between two doubles, on bit patterns: NaN equals nothing,
the two zeros are equal, distinct non-NaN patterns otherwise denote
distinct values. -/
def realEqReal (a b : Nat) : Bool :=
  let isNaN : Nat → Bool := fun x => x / 2 ^ 52 % 2 ^ 11 = 0x7FF && x % 2 ^ 52 != 0
  if isNaN a || isNaN b then false
  else if a = b then true
  else decide (a % 2 ^ 63 = 0 ∧ b % 2 ^ 63 = 0)

/-- Python `==` restricted to hashable decoded values, as used by the
`dict` lookups of the Map branch (`True == 1`, `1 == 1.0`, etc.; the
container cases never reach a `dict` slot because they are unhashable). -/
def pyKeyEq : Value → Value → Bool
  | .none, .none => true
  | .bool a, .bool b => a == b
  | .bool a, .int n => (if a then (1 : Int) else 0) == n
  | .int n, .bool a => n == (if a then (1 : Int) else 0)
  | .int a, .int b => a == b
  | .bool a, .real r => realToIntExact r == Option.some (if a then 1 else 0)
  | .real r, .bool a => realToIntExact r == Option.some (if a then 1 else 0)
  | .int n, .real r => realToIntExact r == Option.some n
  | .real r, .int n => realToIntExact r == Option.some n
  | .real a, .real b => realEqReal a b
  | .str a, .str b => a == b
  | .bytes a, .bytes b => a == b
  | _, _ => false

/-- Whether the association list holds a key equal (in Python's sense) to
`k`. -/
def containsKey (acc : List (Value × Value)) (k : Value) : Bool :=
  acc.any fun p => pyKeyEq p.1 k

/-- Overwrite the value of the first entry whose key equals `k`, keeping
the stored key object and its position, as a Python `dict` does. -/
def updateAt : List (Value × Value) → Value → Value → List (Value × Value)
  | [], _, _ => []
  | (k0, v0) :: rest, k, v =>
    if pyKeyEq k0 k then (k0, v) :: rest else (k0, v0) :: updateAt rest k v

/-- `obj[key] = value` of the Map loop: `TypeError` on an unhashable key,
otherwise last-write-wins insertion in insertion order. -/
def dictInsert (acc : List (Value × Value)) (k v : Value) :
    Except String (List (Value × Value)) :=
  if hashable k then
    .ok (if containsKey acc k then updateAt acc k v else acc ++ [(k, v)])
  else .error "TypeError: unhashable type"

/-! ### The decoder `_loadb`

The source's `_loadb` is embedded in pieces so that the nested control
flow stays faithful while each Lean definition keeps a single clean
defining equation:

* `interp` is the `if ct == ...` dispatch of `_loadb` on the sliced
  content for the seven non-recursive types (the `elif ct == TP_MAP`
  branch, the only recursive one, is split into `dispatch`/`mapLoopS`);
* `dispatch` completes the chain with the Map branch;
* `loadbExt` is the `else` branch taken when the size field is 31
  (extended-16 and extended-32 tiers);
* `_loadbS` is `_loadb` with the returned remainder bundled with the fact
  that at least the header byte was consumed (needed for the termination
  of the Map loop); `_loadb` below strips the bundle. -/

/-- The type dispatch of `_loadb` on declared content length `cl` and
sliced content `cr` (which Python slicing may have clamped below `cl`),
for the seven non-recursive types; the Map branch of the source's chain
lives in `dispatch`.  The list branch of the source calls
`unpack(content_raw)` — `struct.unpack` with its buffer argument
missing — so any non-empty list content raises a `TypeError`.  The final
branch models the `UnboundLocalError` of falling through the source's
`if`/`elif` chain without assigning `obj`; it is unreachable for byte
inputs. -/
def interp (ct cl : Nat) (cr : List Nat) : Except String Value :=
  if ct = TP_NONE then .ok .none
  else if ct = TP_BOOLEAN then
    if cl = 0 then .ok (.bool false)
    else
      match cr with
      | [] => .error "IndexError: index out of range"
      | c :: _ => if c = 0 then .error "Invalid True value" else .ok (.bool true)
  else if ct = TP_INTEGER then
    if cl = 0 then .ok (.int 0)
    else if cl = 1 then
      if cr.length = 1 then .ok (.int (beInt 1 cr))
      else .error "struct error: unpack requires a buffer of 1 bytes"
    else if cl = 2 then
      if cr.length = 2 then .ok (.int (beInt 2 cr))
      else .error "struct error: unpack requires a buffer of 2 bytes"
    else if cl = 4 then
      if cr.length = 4 then .ok (.int (beInt 4 cr))
      else .error "struct error: unpack requires a buffer of 4 bytes"
    else if cl = 8 then
      if cr.length = 8 then .ok (.int (beInt 8 cr))
      else .error "struct error: unpack requires a buffer of 8 bytes"
    else .error "Integer number too big"
  else if ct = TP_REAL then
    if cl = 0 then .ok (.real 0)
    else if cl = 4 then
      if cr.length = 4 then .ok (.real (singleToDoubleBits (beNat cr)))
      else .error "struct error: unpack requires a buffer of 4 bytes"
    else if cl = 8 then
      if cr.length = 8 then .ok (.real (beNat cr))
      else .error "struct error: unpack requires a buffer of 8 bytes"
    else .error "Real number too big"
  else if ct = TP_STRING then
    if utf8Valid cr then .ok (.str cr) else .error "UnicodeDecodeError: invalid utf-8"
  else if ct = TP_BYTES then .ok (.bytes cr)
  else if ct = TP_LIST then
    match cr with
    | [] => .ok (.list [])
    | _ :: _ => .error "TypeError: unpack requires a buffer argument"
  else .error "UnboundLocalError: obj"

mutual

/-- The full `if ct == ...` chain of `_loadb`: the Map branch iterates
`mapLoopS` over the content, everything else is `interp`. -/
def dispatch (ct cl : Nat) (cr : List Nat) : Except String Value :=
  if ct = TP_MAP then
    match mapLoopS cr [] with
    | .error e => .error e
    | .ok entries => .ok (.map entries)
  else interp ct cl cr
termination_by 3 * cr.length + 3
decreasing_by
  · omega

/-- The extended-size branch of `_loadb`, taken when the size field of the
header byte `b` is 31: `unpack(">BH", ba[0:3])` needs two more bytes (else
`struct.error`), and when the 16-bit length is `0xFFFF` the source calls
`unpack(">BHL", bytes)` on the builtin `bytes` type, a `TypeError`.  `tl`
is the input without its header byte. -/
def loadbExt (ct : Nat) (tl : List Nat) :
    Except String { p : Value × List Nat // p.2.length < tl.length + 1 } :=
  match tl with
  | b1 :: b2 :: tl2 =>
    let content_length := b1 * 256 + b2
    if content_length ≠ TP_EXTENDED_SIZE_32 then
      match dispatch ct content_length (tl2.take content_length) with
      | .error e => .error e
      | .ok v =>
        .ok ⟨(v, tl2.drop content_length), by
          simp only [List.length_cons, List.length_drop]
          omega⟩
    else .error "TypeError: unpack argument must be a bytes buffer"
  | _ => .error "struct error: unpack requires a buffer of 3 bytes"
termination_by 3 * tl.length + 3
decreasing_by
  · simp only [List.length_cons, List.length_take]
    omega

/-- The `_loadb` function of the source, with the consumed-a-byte fact
bundled: read the header byte (error on empty input), and either the
direct tier (size field 0–30: the content is the next `content_length`
bytes, clamped by Python slicing) or the extended tiers via `loadbExt`. -/
def _loadbS (ba : List Nat) :
    Except String { p : Value × List Nat // p.2.length < ba.length } :=
  match ba with
  | [] => .error "Cannot unpack an empty pack"
  | b :: tl =>
    let ct := b &&& TP_TYPE_MASK
    let content_length := b &&& TP_SMALL_SIZE_MASK
    if content_length ≠ TP_EXTENDED_SIZE_16 then
      match dispatch ct content_length (tl.take content_length) with
      | .error e => .error e
      | .ok v =>
        .ok ⟨(v, tl.drop content_length), by
          simp only [List.length_cons, List.length_drop]
          omega⟩
    else
      match loadbExt ct tl with
      | .error e => .error e
      | .ok ⟨p, h⟩ =>
        .ok ⟨p, by
          simp only [List.length_cons]
          omega⟩
termination_by 3 * ba.length + 1
decreasing_by
  · simp only [List.length_cons, List.length_take]
    omega
  · simp only [List.length_cons]
    omega

/-- The `while` loop of the Map branch of `_loadb`: decode a key from the
remaining content, fail with the dangling-key `ValueError` when nothing
remains for its value, otherwise decode the value, insert, and continue on
the remainder. -/
def mapLoopS (c : List Nat) (acc : List (Value × Value)) :
    Except String (List (Value × Value)) :=
  if c.isEmpty then .ok acc
  else
    match _loadbS c with
    | .error e => .error e
    | .ok ⟨(k, rest), hk⟩ =>
      if rest.isEmpty then .error "Dict key/value invalid"
      else
        match _loadbS rest with
        | .error e => .error e
        | .ok ⟨(v, rest2), hv⟩ =>
          match dictInsert acc k v with
          | .error e => .error e
          | .ok acc2 => mapLoopS rest2 acc2
termination_by 3 * c.length + 2
decreasing_by
  · omega
  · have h1 : rest.length < c.length := hk
    omega
  · have h1 : rest.length < c.length := hk
    have h2 : rest2.length < rest.length := hv
    omega

end

/-- The `_loadb` function of the source: one decoded element plus the
unconsumed remainder. -/
def _loadb (ba : List Nat) : Except String (Value × List Nat) :=
  match _loadbS ba with
  | .error e => .error e
  | .ok p => .ok p.val

/-- The `loadb` entry point of the source: the first decoded element,
trailing bytes discarded. -/
def loadb (ba : List Nat) : Except String Value :=
  match _loadb ba with
  | .error e => .error e
  | .ok p => .ok p.1

/-! ### Arithmetic forms of the header masks -/

/-- The size field `b & 0x1F` is `b % 32`. -/
lemma and_31 (b : Nat) : b &&& 31 = b % 32 := by
  have h := Nat.and_pow_two_sub_one_eq_mod b 5
  norm_num at h
  exact h

/-- The type field `b & 0xE0` is `b / 32 % 8 * 32`. -/
lemma and_224 (b : Nat) : b &&& 224 = b / 32 % 8 * 32 := by
  have h2 : b / 32 % 8 * 32 = ((b >>> 5) % 2 ^ 3) <<< 5 := by
    simp [Nat.shiftRight_eq_div_pow, Nat.shiftLeft_eq]
  rw [show (224 : Nat) = 7 <<< 5 by decide, h2]
  apply Nat.eq_of_testBit_eq
  intro i
  simp only [Nat.testBit_and, Nat.testBit_shiftLeft, Nat.testBit_shiftRight,
    Nat.testBit_mod_two_pow, show (7 : Nat) = 2 ^ 3 - 1 by norm_num,
    Nat.testBit_two_pow_sub_one]
  by_cases h : 5 ≤ i
  · have hi : 5 + (i - 5) = i := by omega
    simp [h, hi, Bool.and_comm, Bool.and_left_comm]
  · simp [h]

/-! ### Unfolding equations of the decoder

The mutual well-founded definitions above do not reduce definitionally;
these equations restate each layer of `_loadb` in terms of the plain
wrappers, and every later proof about the decoder goes through them. -/

/-- Decoding an empty buffer raises. -/
lemma loadb_nil : _loadb [] = .error "Cannot unpack an empty pack" := by
  rw [_loadb, _loadbS]

/-- The Map arm of the type dispatch. -/
lemma dispatch_map (cl : Nat) (cr : List Nat) :
    dispatch 224 cl cr =
      match mapLoopS cr [] with
      | .error e => .error e
      | .ok entries => .ok (.map entries) := by
  rw [dispatch, if_pos (show (224 : Nat) = TP_MAP from rfl)]

/-- All non-Map arms of the type dispatch are `interp`. -/
lemma dispatch_ne (ct cl : Nat) (cr : List Nat) (h : ct ≠ 224) :
    dispatch ct cl cr = interp ct cl cr := by
  rw [dispatch, if_neg (show ¬ct = TP_MAP from h)]

/-- One direct-tier element: size field below 31. -/
lemma loadb_cons (b : Nat) (tl : List Nat) (h : b % 32 ≠ 31) :
    _loadb (b :: tl) =
      match dispatch (b / 32 % 8 * 32) (b % 32) (tl.take (b % 32)) with
      | .error e => .error e
      | .ok v => .ok (v, tl.drop (b % 32)) := by
  rw [_loadb, _loadbS]
  simp only [and_31, and_224, TP_TYPE_MASK, TP_SMALL_SIZE_MASK, TP_EXTENDED_SIZE_16]
  rw [if_pos h]
  cases dispatch (b / 32 % 8 * 32) (b % 32) (tl.take (b % 32)) <;> rfl

/-- One extended-16-tier element: size field 31 and 16-bit length below
`0xFFFF`. -/
lemma loadb_ext (b b1 b2 : Nat) (tl2 : List Nat) (h : b % 32 = 31)
    (h2 : b1 * 256 + b2 ≠ 65535) :
    _loadb (b :: b1 :: b2 :: tl2) =
      match dispatch (b / 32 % 8 * 32) (b1 * 256 + b2) (tl2.take (b1 * 256 + b2)) with
      | .error e => .error e
      | .ok v => .ok (v, tl2.drop (b1 * 256 + b2)) := by
  rw [_loadb, _loadbS]
  simp only [and_31, and_224, TP_TYPE_MASK, TP_SMALL_SIZE_MASK, TP_EXTENDED_SIZE_16]
  rw [if_neg (by omega)]
  rw [loadbExt]
  simp only [TP_EXTENDED_SIZE_32]
  rw [if_pos h2]
  cases dispatch (b / 32 % 8 * 32) (b1 * 256 + b2) (tl2.take (b1 * 256 + b2)) <;> rfl

/-- The extended-32 escape always raises the `TypeError` of
`unpack(">BHL", bytes)`. -/
lemma loadb_ext32 (b b1 b2 : Nat) (tl2 : List Nat) (h : b % 32 = 31)
    (h2 : b1 * 256 + b2 = 65535) :
    _loadb (b :: b1 :: b2 :: tl2) =
      .error "TypeError: unpack argument must be a bytes buffer" := by
  rw [_loadb, _loadbS]
  simp only [and_31, and_224, TP_TYPE_MASK, TP_SMALL_SIZE_MASK, TP_EXTENDED_SIZE_16]
  rw [if_neg (by omega)]
  rw [loadbExt]
  simp only [TP_EXTENDED_SIZE_32]
  rw [if_neg (by omega)]

/-- A size field of 31 with no byte after the header underflows the
three-byte `unpack(">BH", ba[0:3])`. -/
lemma loadb_short1 (b : Nat) (h : b % 32 = 31) :
    _loadb [b] = .error "struct error: unpack requires a buffer of 3 bytes" := by
  rw [_loadb, _loadbS]
  simp only [and_31, and_224, TP_TYPE_MASK, TP_SMALL_SIZE_MASK, TP_EXTENDED_SIZE_16]
  rw [if_neg (by omega)]
  rw [loadbExt]
  simp

/-- A size field of 31 with one byte after the header underflows the
three-byte `unpack(">BH", ba[0:3])`. -/
lemma loadb_short2 (b b1 : Nat) (h : b % 32 = 31) :
    _loadb [b, b1] = .error "struct error: unpack requires a buffer of 3 bytes" := by
  rw [_loadb, _loadbS]
  simp only [and_31, and_224, TP_TYPE_MASK, TP_SMALL_SIZE_MASK, TP_EXTENDED_SIZE_16]
  rw [if_neg (by omega)]
  rw [loadbExt]
  simp

/-- An `_loadb` success came from `_loadbS` with the consumption bound. -/
lemma loadbS_of_loadb (ba : List Nat) (k : Value) (rest : List Nat)
    (h : _loadb ba = .ok (k, rest)) :
    ∃ hp : rest.length < ba.length, _loadbS ba = .ok ⟨(k, rest), hp⟩ := by
  rw [_loadb] at h
  cases hS : _loadbS ba with
  | error e => rw [hS] at h; exact absurd h (by simp)
  | ok p =>
    obtain ⟨⟨k0, r0⟩, hp⟩ := p
    rw [hS] at h
    simp only [Except.ok.injEq] at h
    obtain ⟨rfl, rfl⟩ := Prod.mk.injEq .. ▸ h
    exact ⟨hp, rfl⟩

/-- The None arm of the dispatch: no length check at all. -/
lemma interp_none (cl : Nat) (cr : List Nat) : interp 0 cl cr = .ok .none := by
  rw [interp.eq_def]
  rfl

/-- The Boolean arm of the dispatch: the declared length selects `False`,
everything else looks only at the first content byte. -/
lemma interp_bool (cl : Nat) (cr : List Nat) :
    interp 32 cl cr =
      if cl = 0 then .ok (.bool false)
      else
        match cr with
        | [] => .error "IndexError: index out of range"
        | c :: _ => if c = 0 then .error "Invalid True value" else .ok (.bool true) := by
  rw [interp.eq_def]
  rfl

/-- The String arm of the dispatch: UTF-8 check on the sliced content. -/
lemma interp_str (cl : Nat) (cr : List Nat) :
    interp 128 cl cr =
      if utf8Valid cr then .ok (.str cr)
      else .error "UnicodeDecodeError: invalid utf-8" := by
  rw [interp.eq_def]
  rfl

/-- The Bytes arm of the dispatch: the sliced content, verbatim. -/
lemma interp_bytes (cl : Nat) (cr : List Nat) : interp 160 cl cr = .ok (.bytes cr) := by
  rw [interp.eq_def]
  rfl

/-- An empty Map content yields the accumulated entries. -/
lemma mapLoop_nil (acc : List (Value × Value)) : mapLoopS [] acc = .ok acc := by
  rw [mapLoopS]
  rfl

/-- One iteration of the Map loop, phrased with the plain `_loadb`. -/
lemma mapLoop_cons (c : List Nat) (acc : List (Value × Value)) (hc : c ≠ []) :
    mapLoopS c acc =
      match _loadb c with
      | .error e => .error e
      | .ok (k, rest) =>
        if rest.isEmpty then .error "Dict key/value invalid"
        else
          match _loadb rest with
          | .error e => .error e
          | .ok (v, rest2) =>
            match dictInsert acc k v with
            | .error e => .error e
            | .ok acc2 => mapLoopS rest2 acc2 := by
  rw [mapLoopS, if_neg (by simp [hc])]
  simp only [_loadb]
  cases hS : _loadbS c with
  | error e => rfl
  | ok p =>
    obtain ⟨⟨k, rest⟩, hp⟩ := p
    dsimp only
    by_cases hr : rest.isEmpty
    · rw [if_pos hr, if_pos hr]
    · rw [if_neg hr, if_neg hr]
      cases hS2 : _loadbS rest with
      | error e => rfl
      | ok p2 =>
        obtain ⟨⟨v, rest2⟩, hp2⟩ := p2
        rfl

/-! ### Reference integer encoders

`intEncRef` renders the specification's words for the integer branch (a
refinement claim compares it with `dumpb`); `intEncAmended` is the
magnitude-based rule the code actually implements. -/

/-- The reference minimal-width integer encoder as the specification
states it: value 0 is a bare header, otherwise the minimal signed
two's-complement width in 1, 2, 4, 8 bytes, with 1 byte covering exactly
−128..127, 2 bytes −32768..32767, 4 bytes the 32-bit signed range, and
8 bytes the rest of the 64-bit signed range; a range error exactly
outside the 64-bit signed range. -/
def intEncRef (n : Int) : Except String (List Nat) :=
  if n = 0 then .ok [0x40]
  else if -128 ≤ n ∧ n ≤ 127 then .ok (0x41 :: beBytesI 1 n)
  else if -32768 ≤ n ∧ n ≤ 32767 then .ok (0x42 :: beBytesI 2 n)
  else if -(2 ^ 31) ≤ n ∧ n ≤ 2 ^ 31 - 1 then .ok (0x44 :: beBytesI 4 n)
  else if -(2 ^ 63) ≤ n ∧ n ≤ 2 ^ 63 - 1 then .ok (0x48 :: beBytesI 8 n)
  else .error "Integer number too big"

/-- The magnitude-based width rule the source implements through
`bit_len`: the width thresholds are on the magnitude of the value, so the
negative boundary of each two's-complement width is pushed to the next
width and the most negative 64-bit integer is rejected. -/
def intEncAmended (n : Int) : Except String (List Nat) :=
  if n = 0 then .ok [0x40]
  else if n.natAbs ≤ 127 then .ok (0x41 :: beBytesI 1 n)
  else if n.natAbs ≤ 32767 then .ok (0x42 :: beBytesI 2 n)
  else if n.natAbs ≤ 2 ^ 31 - 1 then .ok (0x44 :: beBytesI 4 n)
  else if n.natAbs ≤ 2 ^ 63 - 1 then .ok (0x48 :: beBytesI 8 n)
  else .error "Integer number too big"

/-- The integer branch of `dumpb` is exactly the magnitude-based rule. -/
lemma dumpb_int_char (n : Int) (ud : Bool) :
    dumpb (Value.int n) ud = intEncAmended n := by
  have e0 : bit_len n = 0 ↔ n = 0 := by
    rw [bit_len, Nat.size_eq_zero, Int.natAbs_eq_zero]
  have e7 : bit_len n ≤ 7 ↔ n.natAbs ≤ 127 := by
    rw [bit_len, Nat.size_le]
    omega
  have e15 : bit_len n ≤ 15 ↔ n.natAbs ≤ 32767 := by
    rw [bit_len, Nat.size_le]
    omega
  have e31 : bit_len n ≤ 31 ↔ n.natAbs ≤ 2 ^ 31 - 1 := by
    rw [bit_len, Nat.size_le]
    omega
  have e63 : bit_len n ≤ 63 ↔ n.natAbs ≤ 2 ^ 63 - 1 := by
    rw [bit_len, Nat.size_le]
    omega
  rw [dumpb, intEncAmended]
  simp only [e0, e7, e15, e31, e63]
  rfl


/-! ### Concrete element facts shared by several proofs below -/

/-- Encoded integer 1 decodes back, leaving the tail. -/
lemma el_int1 (r : List Nat) : _loadb (0x41 :: 0x01 :: r) = .ok (.int 1, r) := by
  rw [loadb_cons _ _ (by decide)]
  rw [show (0x41 : Nat) % 32 = 1 from rfl, show (0x41 : Nat) / 32 % 8 * 32 = 64 from rfl]
  rw [List.take_succ_cons, List.take_zero, List.drop_succ_cons, List.drop_zero]
  rw [dispatch_ne _ _ _ (by decide)]
  rfl

/-- Encoded string "a" decodes back, leaving the tail. -/
lemma el_strA (r : List Nat) : _loadb (0x81 :: 0x61 :: r) = .ok (.str [0x61], r) := by
  rw [loadb_cons _ _ (by decide)]
  rw [show (0x81 : Nat) % 32 = 1 from rfl, show (0x81 : Nat) / 32 % 8 * 32 = 128 from rfl]
  rw [List.take_succ_cons, List.take_zero, List.drop_succ_cons, List.drop_zero]
  rw [dispatch_ne _ _ _ (by decide), interp_str]
  rfl

/-- Claim C2: failing input of the list-encode claim. -/
theorem claim2_thm :
    dumpb (Value.list [Value.int 1, Value.int 2]) false
      = .error "TypeError: pack requires a struct format string"
    ∧ dumpb (Value.list []) false = .ok [0xC0] := by
  constructor
  · rw [dumpb]
    rfl
  · rw [dumpb]
    rfl

/-- Claim C3: failing input of the list-decode claim. -/
theorem claim3_thm :
    _loadb [0xC4, 0x41, 0x01, 0x41, 0x02]
      = .error "TypeError: unpack requires a buffer argument"
    ∧ _loadb [0xC0] = .ok (.list [], []) := by
  constructor
  · rw [loadb_cons _ _ (by decide), dispatch_ne _ _ _ (by decide)]
    rfl
  · rw [loadb_cons _ _ (by decide), dispatch_ne _ _ _ (by decide)]
    rfl

/-- Claim C5: the encoder produces the extended-32 tier for a 65535-byte
content, and every buffer opening with the extended-32 escape makes the
decoder raise. -/
theorem claim5_thm :
    dumpb (Value.bytes (List.replicate 65535 0x41)) false
      = .ok ([0xBF, 0xFF, 0xFF, 0x00, 0x00, 0xFF, 0xFF] ++ List.replicate 65535 0x41)
    ∧ ∀ rest : List Nat, _loadb (0xBF :: 0xFF :: 0xFF :: rest)
      = .error "TypeError: unpack argument must be a bytes buffer" := by
  constructor
  · rw [dumpb, tiered]
    simp only [List.length_replicate]
    norm_num [TP_SMALL_SIZE_MAX]
    exact ⟨rfl, rfl⟩
  · intro rest
    exact loadb_ext32 _ _ _ _ (by decide) (by decide)

/-- Claim C10: every empty block or container encodes to its bare header byte
and that byte decodes back to the empty value. -/
theorem claim10_thm :
    dumpb (Value.str []) false = .ok [0x80]
    ∧ dumpb (Value.bytes []) false = .ok [0xA0]
    ∧ dumpb (Value.list []) false = .ok [0xC0]
    ∧ dumpb (Value.map []) false = .ok [0xE0]
    ∧ loadb [0x80] = .ok (Value.str [])
    ∧ loadb [0xA0] = .ok (Value.bytes [])
    ∧ loadb [0xC0] = .ok (Value.list [])
    ∧ loadb [0xE0] = .ok (Value.map []) := by
  have hm : dumpbItems [] = .ok [] := by rw [dumpbItems]
  refine ⟨by rw [dumpb]; rfl, by rw [dumpb]; rfl, by rw [dumpb]; rfl, ?_, ?_, ?_, ?_, ?_⟩
  · rw [dumpb, hm]
    rfl
  · rw [loadb, loadb_cons _ _ (by decide), dispatch_ne _ _ _ (by decide)]
    rfl
  · rw [loadb, loadb_cons _ _ (by decide), dispatch_ne _ _ _ (by decide)]
    rfl
  · rw [loadb, loadb_cons _ _ (by decide), dispatch_ne _ _ _ (by decide)]
    rfl
  · rw [loadb, loadb_cons _ _ (by decide)]
    rw [show (0xE0 : Nat) % 32 = 0 from rfl, show (0xE0 : Nat) / 32 % 8 * 32 = 224 from rfl]
    rw [List.take_zero, List.drop_zero, dispatch_map, mapLoop_nil]

/-- Claim C1: round-trip through the codec at sample values of every variant,
and the dumpb crash on the non-empty list that refutes the round-trip
claim. -/
theorem claim1_thm :
    dumpb (Value.list [Value.int 1]) false
      = .error "TypeError: pack requires a struct format string"
    ∧ dumpb Value.none false = .ok [0x00] ∧ loadb [0x00] = .ok Value.none
    ∧ dumpb (Value.bool true) false = .ok [0x21, 0x01]
    ∧ loadb [0x21, 0x01] = .ok (Value.bool true)
    ∧ dumpb (Value.bool false) false = .ok [0x20] ∧ loadb [0x20] = .ok (Value.bool false)
    ∧ dumpb (Value.int 123) false = .ok [0x41, 0x7B]
    ∧ loadb [0x41, 0x7B] = .ok (Value.int 123)
    ∧ dumpb (Value.int (-123)) false = .ok [0x41, 0x85]
    ∧ loadb [0x41, 0x85] = .ok (Value.int (-123))
    ∧ dumpb (Value.str [0x48, 0x69]) false = .ok [0x82, 0x48, 0x69]
    ∧ loadb [0x82, 0x48, 0x69] = .ok (Value.str [0x48, 0x69])
    ∧ dumpb (Value.bytes [1, 2, 3]) false = .ok [0xA3, 1, 2, 3]
    ∧ loadb [0xA3, 1, 2, 3] = .ok (Value.bytes [1, 2, 3])
    ∧ dumpb (Value.real 0x3FE0000000000000) false = .ok [0x64, 0x3F, 0x00, 0x00, 0x00]
    ∧ loadb [0x64, 0x3F, 0x00, 0x00, 0x00] = .ok (Value.real 0x3FE0000000000000)
    ∧ dumpb (Value.map [(Value.str [0x61], Value.int 1)]) false
      = .ok [0xE4, 0x81, 0x61, 0x41, 0x01]
    ∧ loadb [0xE4, 0x81, 0x61, 0x41, 0x01]
      = .ok (Value.map [(Value.str [0x61], Value.int 1)]) := by
  have hsa : dumpb (Value.str [0x61]) false = .ok [0x81, 0x61] := by
    rw [dumpb]
    rfl
  have hi1 : dumpb (Value.int 1) false = .ok [0x41, 0x01] := by
    rw [dumpb_int_char]
    rfl
  have hmap : loadb [0xE4, 0x81, 0x61, 0x41, 0x01]
      = .ok (Value.map [(Value.str [0x61], Value.int 1)]) := by
    have m1 : mapLoopS [0x81, 0x61, 0x41, 0x01] []
        = .ok [(Value.str [0x61], Value.int 1)] := by
      rw [mapLoop_cons _ _ (by decide), el_strA]
      norm_num [el_int1, dictInsert, hashable, containsKey, mapLoop_nil]
    rw [loadb, loadb_cons _ _ (by decide)]
    rw [show (0xE4 : Nat) % 32 = 4 from rfl, show (0xE4 : Nat) / 32 % 8 * 32 = 224 from rfl]
    rw [show List.take 4 [0x81, 0x61, 0x41, 0x01] = [0x81, 0x61, 0x41, 0x01] from rfl]
    rw [dispatch_map, m1]
  refine ⟨by rw [dumpb]; rfl, by rw [dumpb]; rfl, ?_, by rw [dumpb]; rfl, ?_,
    by rw [dumpb]; rfl, ?_, by rw [dumpb_int_char]; rfl, ?_, by rw [dumpb_int_char]; rfl, ?_,
    by rw [dumpb]; rfl, ?_, by rw [dumpb]; rfl, ?_, by rw [dumpb]; rfl, ?_, ?_, hmap⟩
  · rw [loadb, loadb_cons _ _ (by decide), dispatch_ne _ _ _ (by decide)]
    rfl
  · rw [loadb, loadb_cons _ _ (by decide), dispatch_ne _ _ _ (by decide)]
    rfl
  · rw [loadb, loadb_cons _ _ (by decide), dispatch_ne _ _ _ (by decide)]
    rfl
  · rw [loadb, loadb_cons _ _ (by decide), dispatch_ne _ _ _ (by decide)]
    rfl
  · rw [loadb, loadb_cons _ _ (by decide), dispatch_ne _ _ _ (by decide)]
    rfl
  · rw [loadb, loadb_cons _ _ (by decide), dispatch_ne _ _ _ (by decide)]
    rfl
  · rw [loadb, loadb_cons _ _ (by decide), dispatch_ne _ _ _ (by decide)]
    rfl
  · rw [loadb, loadb_cons _ _ (by decide), dispatch_ne _ _ _ (by decide)]
    rfl
  · rw [dumpb, dumpbItems, hsa, hi1, dumpbItems]
    rfl



/-- Claim C4 counterexample: the code does not implement the claimed
minimal-width rule: −128 is emitted at width 2 where the claimed rule
emits width 1, and −2^63 raises where the claimed rule encodes it. -/
theorem claim4_counterexample :
    dumpb (Value.int (-128)) false = .ok [0x42, 0xFF, 0x80]
    ∧ intEncRef (-128) = .ok [0x41, 0x80]
    ∧ dumpb (Value.int (-128)) false ≠ intEncRef (-128)
    ∧ dumpb (Value.int (-(2 ^ 63))) false = .error "Integer number too big"
    ∧ intEncRef (-(2 ^ 63)) = .ok [0x48, 0x80, 0x00, 0x00, 0x00, 0x00, 0x00, 0x00, 0x00] := by
  have h1 : dumpb (Value.int (-128)) false = .ok [0x42, 0xFF, 0x80] := by
    rw [dumpb_int_char]
    rfl
  have h2 : intEncRef (-128) = .ok [0x41, 0x80] := by rfl
  refine ⟨h1, h2, ?_, by rw [dumpb_int_char]; rfl, by rfl⟩
  rw [h1, h2]
  simp

/-- Claim C4 amended: `dumpb` on integers equals the magnitude-based reference
encoder `intEncAmended` for every integer and either precision flag. -/
theorem claim4_amended_thm :
    ∀ (n : Int) (ud : Bool), dumpb (Value.int n) ud = intEncAmended n :=
  dumpb_int_char

/-- Claim C6 counterexample: a String element declaring 4 content bytes with
only 2 available decodes to the shortened text instead of failing. -/
theorem claim6_counterexample :
    _loadb [0x84, 0x48, 0x69] = .ok (.str [0x48, 0x69], []) := by
  rw [loadb_cons _ _ (by decide), dispatch_ne _ _ _ (by decide)]
  rfl

/-- Claim C6 amended: a direct-tier String or Bytes element whose declared
length exceeds the bytes remaining is silently clamped to the remaining
bytes and decodes to the shortened value. -/
theorem claim6_amended_thm :
    ∀ (l : Nat) (cs : List Nat), l ≤ 30 → cs.length < l →
      _loadb ((0xA0 + l) :: cs) = .ok (.bytes cs, [])
      ∧ (utf8Valid cs = true → _loadb ((0x80 + l) :: cs) = .ok (.str cs, []))
      ∧ _loadb [0x44, 0x01] = .error "struct error: unpack requires a buffer of 4 bytes" := by
  intro l cs h30 hlen
  have ht : cs.take l = cs := List.take_of_length_le (by omega)
  have hd : cs.drop l = [] := List.drop_eq_nil_of_le (by omega)
  refine ⟨?_, ?_, by rw [loadb_cons _ _ (by decide), dispatch_ne _ _ _ (by decide)]; rfl⟩
  · rw [loadb_cons _ _ (by omega)]
    rw [show (0xA0 + l) % 32 = l by omega, show (0xA0 + l) / 32 % 8 * 32 = 160 by omega]
    rw [ht, hd, dispatch_ne _ _ _ (by decide), interp_bytes]
  · intro hu
    rw [loadb_cons _ _ (by omega)]
    rw [show (0x80 + l) % 32 = l by omega, show (0x80 + l) / 32 % 8 * 32 = 128 by omega]
    rw [ht, hd, dispatch_ne _ _ _ (by decide), interp_str, if_pos hu]

/-- Claim C6 witness: the amended statement at the concrete truncated inputs. -/
theorem claim6_amended_witness :
    (4 : Nat) ≤ 30 ∧ ([0x48, 0x69] : List Nat).length < 4
    ∧ _loadb ((0xA0 + 4) :: [0x48, 0x69]) = .ok (.bytes [0x48, 0x69], [])
    ∧ _loadb ((0x80 + 4) :: [0x48, 0x69]) = .ok (.str [0x48, 0x69], [])
    ∧ _loadb [0x44, 0x01] = .error "struct error: unpack requires a buffer of 4 bytes" :=
  ⟨by norm_num, by norm_num,
    (claim6_amended_thm 4 [0x48, 0x69] (by norm_num) (by norm_num)).1,
    (claim6_amended_thm 4 [0x48, 0x69] (by norm_num) (by norm_num)).2.1 (by decide),
    (claim6_amended_thm 4 [0x48, 0x69] (by norm_num) (by norm_num)).2.2⟩

/-- Claim C7 counterexample: a Boolean element with declared content length 2
decodes to `True` instead of being rejected. -/
theorem claim7_counterexample :
    _loadb [0x22, 0x01, 0x01] = .ok (.bool true, []) := by
  rw [loadb_cons _ _ (by decide), dispatch_ne _ _ _ (by decide)]
  rfl

/-- Claim C7 amended: Boolean decoding looks only at the first content byte:
length 0 gives `False`; for any declared direct-tier length of at least 1
a nonzero first content byte gives `True` and a zero first byte raises the
invalid-true error, whatever the length. -/
theorem claim7_amended_thm :
    ∀ (l c : Nat) (cs rest : List Nat), 1 ≤ l → l ≤ 30 → (c :: cs).length = l →
      (_loadb ((0x20 + l) :: ((c :: cs) ++ rest))
        = if c = 0 then .error "Invalid True value" else .ok (.bool true, rest))
      ∧ _loadb (0x20 :: rest) = .ok (.bool false, rest) := by
  intro l c cs rest h1 h30 hlen
  have ht : ((c :: cs) ++ rest).take l = c :: cs := List.take_left' hlen
  have hd : ((c :: cs) ++ rest).drop l = rest := List.drop_left' hlen
  constructor
  · rw [loadb_cons _ _ (by omega)]
    rw [show (0x20 + l) % 32 = l by omega, show (0x20 + l) / 32 % 8 * 32 = 32 by omega]
    rw [ht, hd, dispatch_ne _ _ _ (by decide), interp_bool, if_neg (by omega)]
    dsimp only
    by_cases hc : c = 0 <;> simp [hc]
  · rw [loadb_cons _ _ (by decide)]
    rw [show (0x20 : Nat) % 32 = 0 from rfl, show (0x20 : Nat) / 32 % 8 * 32 = 32 from rfl]
    rw [List.take_zero, List.drop_zero, dispatch_ne _ _ _ (by decide), interp_bool, if_pos rfl]

/-- Claim C7 witness: the amended statement at a length-2 boolean. -/
theorem claim7_amended_witness :
    (1 : Nat) ≤ 2 ∧ (2 : Nat) ≤ 30 ∧ ((1 : Nat) :: [5]).length = 2
    ∧ (_loadb ((0x20 + 2) :: ((1 :: [5]) ++ [0x99]))
        = if (1 : Nat) = 0 then .error "Invalid True value" else .ok (.bool true, [0x99]))
    ∧ _loadb (0x20 :: [0x99]) = .ok (.bool false, [0x99]) :=
  ⟨by norm_num, by norm_num, by norm_num,
    (claim7_amended_thm 2 1 [5] [0x99] (by norm_num) (by norm_num) (by norm_num)).1,
    (claim7_amended_thm 2 1 [5] [0x99] (by norm_num) (by norm_num) (by norm_num)).2⟩

/-- Claim C8 counterexample: a None element with declared content length 1
decodes to None instead of raising. -/
theorem claim8_counterexample : _loadb [0x01, 0x07] = .ok (.none, []) := by
  rw [loadb_cons _ _ (by decide), dispatch_ne _ _ _ (by decide)]
  rfl

/-- Claim C8 amended: a None element decodes to None for every declared
direct-tier content length; the declared content bytes are skipped
without any check. -/
theorem claim8_amended_thm :
    ∀ (l : Nat) (content rest : List Nat), l ≤ 30 → content.length = l →
      _loadb (l :: (content ++ rest)) = .ok (.none, rest) := by
  intro l content rest h30 hlen
  have ht : (content ++ rest).take l = content := List.take_left' hlen
  have hd : (content ++ rest).drop l = rest := List.drop_left' hlen
  rw [loadb_cons _ _ (by omega)]
  rw [show l % 32 = l by omega, show l / 32 % 8 * 32 = 0 by omega]
  rw [ht, hd, dispatch_ne _ _ _ (by decide), interp_none]

/-- Claim C8 witness: the amended statement at a length-1 None element. -/
theorem claim8_amended_witness :
    (1 : Nat) ≤ 30 ∧ ([7] : List Nat).length = 1
    ∧ _loadb (1 :: ([7] ++ [0x42])) = .ok (.none, [0x42]) :=
  ⟨by norm_num, by norm_num, claim8_amended_thm 1 [7] [0x42] (by norm_num) (by norm_num)⟩

/-- Claim C9 counterexample: a Map content holding an even number of elements
whose key is a decoded list fails with the unhashable-key `TypeError`, so
not every non-dangling pair is inserted. -/
theorem claim9_counterexample :
    _loadb [0xE2, 0xC0, 0x00] = .error "TypeError: unhashable type" := by
  have h1 : _loadb [0xC0, 0x00] = .ok (.list [], [0x00]) := by
    rw [loadb_cons _ _ (by decide), dispatch_ne _ _ _ (by decide)]
    rfl
  have h2 : _loadb [0x00] = .ok (.none, []) := by
    rw [loadb_cons _ _ (by decide), dispatch_ne _ _ _ (by decide)]
    rfl
  rw [loadb_cons _ _ (by decide)]
  rw [show (0xE2 : Nat) % 32 = 2 from rfl, show (0xE2 : Nat) / 32 % 8 * 32 = 224 from rfl]
  rw [show List.take 2 [0xC0, 0x00] = [0xC0, 0x00] from rfl, dispatch_map]
  rw [mapLoop_cons _ _ (by decide), h1]
  norm_num [h2, dictInsert, hashable]

/-- Claim C9 amended: the Map loop fails with the dangling-key error exactly
when a decoded key consumes the entire remaining content, steps by
decoding a key and a value and inserting with last-write-wins otherwise
(when the key is hashable), and on a buffer with a duplicated key the
later value wins. -/
theorem claim9_amended_thm :
    (∀ (c : List Nat) (k : Value) (acc : List (Value × Value)),
        _loadb c = .ok (k, []) → mapLoopS c acc = .error "Dict key/value invalid")
    ∧ (∀ (c rest rest2 : List Nat) (k v : Value) (acc acc2 : List (Value × Value)),
        _loadb c = .ok (k, rest) → rest ≠ [] → _loadb rest = .ok (v, rest2) →
        dictInsert acc k v = .ok acc2 → mapLoopS c acc = mapLoopS rest2 acc2)
    ∧ loadb [0xE8, 0x81, 0x61, 0x41, 0x01, 0x81, 0x61, 0x41, 0x02]
        = .ok (.map [(.str [0x61], .int 2)]) := by
  refine ⟨?_, ?_, ?_⟩
  · intro c k acc h
    have hc : c ≠ [] := by
      rintro rfl
      rw [loadb_nil] at h
      exact Except.noConfusion h
    rw [mapLoop_cons _ _ hc, h]
    rfl
  · intro c rest rest2 k v acc acc2 h1 hr h2 h3
    have hc : c ≠ [] := by
      rintro rfl
      rw [loadb_nil] at h1
      exact Except.noConfusion h1
    rw [mapLoop_cons _ _ hc, h1]
    dsimp only
    rw [if_neg (by simp [hr]), h2]
    dsimp only
    rw [h3]
  · have m1 : mapLoopS [0x81, 0x61, 0x41, 0x01, 0x81, 0x61, 0x41, 0x02] []
        = .ok [(Value.str [0x61], Value.int 2)] := by
      rw [mapLoop_cons _ _ (by decide), el_strA]
      norm_num [el_int1, dictInsert, hashable, containsKey]
      have h2v : _loadb [0x41, 0x02] = .ok (.int 2, []) := by
        rw [loadb_cons _ _ (by decide), dispatch_ne _ _ _ (by decide)]
        rfl
      rw [mapLoop_cons _ _ (by decide), el_strA]
      norm_num [h2v, dictInsert, hashable, containsKey, updateAt, pyKeyEq, mapLoop_nil]
    rw [loadb, loadb_cons _ _ (by decide)]
    rw [show (0xE8 : Nat) % 32 = 8 from rfl, show (0xE8 : Nat) / 32 % 8 * 32 = 224 from rfl]
    rw [show List.take 8 [0x81, 0x61, 0x41, 0x01, 0x81, 0x61, 0x41, 0x02]
        = [0x81, 0x61, 0x41, 0x01, 0x81, 0x61, 0x41, 0x02] from rfl]
    rw [dispatch_map, m1]

/-- Claim C9 witness: the dangling and step parts of the amended claim applied
at concrete contents. -/
theorem claim9_amended_witness :
    mapLoopS [0x40] [] = .error "Dict key/value invalid"
    ∧ mapLoopS [0x81, 0x61, 0x41, 0x01] [] = mapLoopS [] [(Value.str [0x61], Value.int 1)] := by
  have h1 : _loadb [0x40] = .ok (.int 0, []) := by
    rw [loadb_cons _ _ (by decide), dispatch_ne _ _ _ (by decide)]
    rfl
  have h2 : _loadb [0x81, 0x61, 0x41, 0x01] = .ok (.str [0x61], [0x41, 0x01]) :=
    el_strA [0x41, 0x01]
  have h3 : _loadb [0x41, 0x01] = .ok (.int 1, []) := el_int1 []
  have h4 : dictInsert [] (Value.str [0x61]) (Value.int 1)
      = .ok [(Value.str [0x61], Value.int 1)] := by rfl
  exact ⟨claim9_amended_thm.1 [0x40] (Value.int 0) [] h1,
    claim9_amended_thm.2.1 _ _ _ _ _ _ _ h2 (by decide) h3 h4⟩


end TinyPacks
